import Mathlib

/-
  Shallow embedding of the `telefonica` repository (src/telefonica/tables.py and
  src/telefonica/process.py).

  Conventions of the embedding:
  * Python strings are Lean `String`s; `None`-able attributes are `Option`s.
  * `datetime.strptime(s, "%Y-%m-%d").date()` is modelled by `parseDate`, which
    returns `none` exactly when strptime would raise `ValueError`; `date`
    objects are `Date` triples compared lexicographically, as CPython does.
  * Exceptions are modelled by `Except Err`; the `Err` constructors carry the
    message text of the corresponding `raise` statement, so distinct raise
    sites stay distinguishable.  `isinstance(..., str)` checks are discharged
    statically by Lean's types and so do not appear.
  * Methods that assign to `self` return the updated `Table`; a method whose
    body contains no attribute assignment returns its receiver unchanged.
    Because `update_periods` assigns `self.period_column` before running its
    query, the `Table` returned on the error path carries that assignment:
    the pair `(Table, Except Err α)` is the post-state together with the
    outcome, mirroring that a raised exception does not roll back mutation.
  * Calls to the external gateway (`get_df_from_query`, `run_sql_file`) are
    modelled by passing the query's result in as an argument (`QueryResult`)
    and by recording each script execution as a `ScriptCall` value; the list
    of `ScriptCall`s made during a method is part of its result.
-/

namespace Telefonica

/-- A calendar date as produced by `datetime.strptime(s, "%Y-%m-%d").date()`. -/
structure Date where
  year : Nat
  month : Nat
  day : Nat
deriving DecidableEq, Repr

/-- Gregorian leap-year rule used by `datetime.date`. -/
def isLeap (y : Nat) : Bool :=
  (y % 4 == 0 && y % 100 != 0) || y % 400 == 0

/-- Number of days in a month, as validated by `datetime.date`. -/
def daysInMonth (y m : Nat) : Nat :=
  if m = 2 then (if isLeap y then 29 else 28)
  else if m = 4 ∨ m = 6 ∨ m = 9 ∨ m = 11 then 30
  else 31

/-- Split a character list at every `-`, keeping empty pieces (the shape of
`"a-b-c".split("-")`). -/
def splitDash : List Char → List (List Char)
  | [] => [[]]
  | c :: cs =>
    if c = '-' then [] :: splitDash cs
    else
      match splitDash cs with
      | [] => [[c]]
      | p :: ps => (c :: p) :: ps

/-- Numeric value of a digit run; `none` if any character is not a digit. -/
def digitsVal (cs : List Char) : Option Nat :=
  cs.foldl
    (fun acc c =>
      match acc with
      | none => none
      | some n => if c.isDigit then some (n * 10 + (c.toNat - 48)) else none)
    (some 0)

/-- One numeric field of the `%Y-%m-%d` pattern: a non-empty run of at most
`maxLen` digits (strptime consumes at most 4 digits for `%Y` and at most 2 for
`%m` / `%d`, and allows fewer, e.g. `2024-1-5`). -/
def parseField (cs : List Char) (maxLen : Nat) : Option Nat :=
  if 1 ≤ cs.length ∧ cs.length ≤ maxLen then digitsVal cs else none

/-- `datetime.strptime(s, "%Y-%m-%d").date()`: `some` of the parsed date, or
`none` when strptime/`date` would raise `ValueError` (wrong shape, non-digit
characters, or an out-of-range year/month/day). -/
def parseDate (s : String) : Option Date :=
  match splitDash s.data with
  | [ys, ms, ds] =>
    match parseField ys 4, parseField ms 2, parseField ds 2 with
    | some y, some m, some d =>
      if 1 ≤ y ∧ y ≤ 9999 ∧ 1 ≤ m ∧ m ≤ 12 ∧ 1 ≤ d ∧ d ≤ daysInMonth y m then
        some ⟨y, m, d⟩
      else none
    | _, _, _ => none
  | _ => none

/-- `a < b` on `datetime.date` values: lexicographic on (year, month, day). -/
def dateLt (a b : Date) : Bool :=
  if a.year ≠ b.year then decide (a.year < b.year)
  else if a.month ≠ b.month then decide (a.month < b.month)
  else decide (a.day < b.day)

/-- Python exceptions raised by the embedded code, tagged with the message of
the corresponding `raise` statement. -/
inductive Err where
  | typeError (msg : String)
  | valueError (msg : String)
  | zeroDivisionError
deriving DecidableEq, Repr

instance {ε α : Type} [DecidableEq ε] [DecidableEq α] : DecidableEq (Except ε α) :=
  fun x y =>
    match x, y with
    | .ok a, .ok b =>
      if h : a = b then .isTrue (by rw [h]) else .isFalse (fun c => h (Except.ok.inj c))
    | .error a, .error b =>
      if h : a = b then .isTrue (by rw [h]) else .isFalse (fun c => h (Except.error.inj c))
    | .ok _, .error _ => .isFalse (fun c => Except.noConfusion c)
    | .error _, .ok _ => .isFalse (fun c => Except.noConfusion c)

/-- Parameters passed to a SQL script (`params` dict). -/
abbrev Params := List (String × String)

/-- One invocation of the external `run_sql_file` capability. -/
structure ScriptCall where
  file : String
  dsn : String
  silent : Option Bool
  params : Option Params
deriving DecidableEq, Repr

/-- A scalar value returned by the gateway inside a dataframe cell (`str(...)`
is applied to it by `update_periods` / `update_dates`). -/
inductive PyValue where
  | str (s : String)
  | int (n : Int)
deriving DecidableEq, Repr

/-- Python `str(...)` on a returned scalar. -/
def pyStr : PyValue → String
  | .str s => s
  | .int n => toString n

/-- Result of `SELECT MAX(col), MIN(col) FROM table` through the gateway:
either an empty dataframe (`df.empty`) or one row whose two cells are
`df.iloc[0, 0]` and `df.iloc[0, 1]`. -/
inductive QueryResult where
  | empty
  | row (v0 v1 : PyValue)
deriving DecidableEq, Repr

/-- The `Table` class of src/telefonica/tables.py: its attributes after
`__init__`. -/
structure Table where
  name : String
  schema : String
  dsn : String
  sql_name : String
  motor : String
  period_column : Option String
  max_period : Option String
  min_period : Option String
  date_column : Option String
  max_date : Option String
  min_date : Option String
deriving DecidableEq, Repr

/-- Python `str.strip()`: drop whitespace from both ends. -/
def pyStrip (s : String) : String :=
  ⟨(((s.data.dropWhile Char.isWhitespace).reverse.dropWhile Char.isWhitespace).reverse)⟩

/-- `Table.__init__(name, schema, dsn, period_column=None)`.  The
`isinstance(..., str)` check on the three required arguments is static here;
the only remaining runtime check is the `dsn` membership test.  Note the
source checks nothing else: names are stripped but may be empty. -/
def Table.init (name schema dsn : String) (period_column : Option String) :
    Except Err Table :=
  if dsn ≠ "DWH_TERADATA" ∧ dsn ≠ "BIGDATA_CDP" then
    .error (.valueError "dsn parameter should be \x27DWH_TERADATA\x27 or \x27BIGDATA_CDP\x27.")
  else
    .ok { name := pyStrip name
          schema := pyStrip schema
          dsn := dsn
          sql_name := pyStrip schema ++ "." ++ pyStrip name
          motor := if dsn = "DWH_TERADATA" then "teradata" else "hive"
          period_column := period_column
          max_period := none
          min_period := none
          date_column := none
          max_date := none
          min_date := none }

/-- Python truthiness of an `Optional[str]` attribute (`if not x`): true for
`None` and for the empty string. -/
def strOptFalsy : Option String → Bool
  | none => true
  | some s => s = ""

/-- `Table.compare_period(comparison_period, greater=True, max=True)`. -/
def Table.compare_period (t : Table) (comparison_period : String)
    (greater : Bool) (max : Bool) : Except Err Bool :=
  match parseDate comparison_period with
  | none => .error (.valueError "comparison_period must be in \x27YYYY-MM-DD\x27 format.")
  | some cp =>
    match (if max then t.max_period else t.min_period) with
    | none =>
      .error (.valueError ("The " ++ (if max then "max" else "min") ++
        " period is not set. Please run \x27update_periods\x27 first."))
    | some s =>
      -- `if not table_period_str` is also taken for the empty string
      if s = "" then
        .error (.valueError ("The " ++ (if max then "max" else "min") ++
          " period is not set. Please run \x27update_periods\x27 first."))
      else
        match parseDate s with
        | none =>
          .error (.valueError ((if max then "max" else "min") ++
            " period must be in \x27YYYY-MM-DD\x27 format."))
        | some tp => .ok (if greater then dateLt tp cp else dateLt cp tp)

/-- `Table.compare_date(comparison_date, greater=True, max=True)`.  The parse
of the stored bound is not wrapped in try/except in the source, so its failure
surfaces as the raw strptime `ValueError`. -/
def Table.compare_date (t : Table) (comparison_date : String)
    (greater : Bool) (max : Bool) : Except Err Bool :=
  match parseDate comparison_date with
  | none => .error (.valueError "comparison_date must be in \x27YYYY-MM-DD\x27 format.")
  | some cp =>
    match (if max then t.max_date else t.min_date) with
    | none =>
      .error (.valueError ("The " ++ (if max then "max" else "min") ++
        " date is not set. Please run \x27update_dates\x27 first."))
    | some s =>
      if s = "" then
        .error (.valueError ("The " ++ (if max then "max" else "min") ++
          " date is not set. Please run \x27update_dates\x27 first."))
      else
        match parseDate s with
        | none =>
          .error (.valueError "time data does not match format \x27%Y-%m-%d\x27")
        | some td => .ok (if greater then dateLt td cp else dateLt cp td)

/-- `Table.update_periods(period_column)`: assigns `self.period_column`, runs
the MAX/MIN query, raises on an empty result, otherwise stores `str(...)` of
the two cells.  The post-state is returned even on the error path because the
`period_column` assignment precedes the query in the source. -/
def Table.update_periods (t : Table) (period_column : String)
    (df : QueryResult) : Table × Except Err Unit :=
  let t1 := { t with period_column := some period_column }
  match df with
  | .empty =>
    (t1, .error (.valueError ("No data found for column \x27" ++ period_column ++
      "\x27 in table \x27" ++ t.sql_name ++ "\x27.")))
  | .row v0 v1 =>
    ({ t1 with max_period := some (pyStr v0), min_period := some (pyStr v1) }, .ok ())

/-- `Table.update_dates(date_column)`: same shape as `update_periods` on the
date fields. -/
def Table.update_dates (t : Table) (date_column : String)
    (df : QueryResult) : Table × Except Err Unit :=
  let t1 := { t with date_column := some date_column }
  match df with
  | .empty =>
    (t1, .error (.valueError ("No data found for column \x27" ++ date_column ++
      "\x27 in table \x27" ++ t.sql_name ++ "\x27.")))
  | .row v0 v1 =>
    ({ t1 with max_date := some (pyStr v0), min_date := some (pyStr v1) }, .ok ())

/-- `Table.get_period_datetime(max=True, date=True)`: both the `date` and the
`datetime` result carry the same calendar-date information here. -/
def Table.get_period_datetime (t : Table) (max date : Bool) : Except Err Date :=
  match (if max then t.max_period else t.min_period) with
  | none =>
    .error (.valueError ("The " ++ (if max then "max" else "min") ++
      " period is not set. Please run \x27update_periods\x27 first."))
  | some s =>
    if s = "" then
      .error (.valueError ("The " ++ (if max then "max" else "min") ++
        " period is not set. Please run \x27update_periods\x27 first."))
    else
      match parseDate s with
      | none => .error (.valueError "The period must be in \x27YYYY-MM-DD\x27 format.")
      | some p => .ok p

/-- `Table.run_modification_script(file, silent, params)`: delegates to the
gateway; the observable effect from the core is the single script call. -/
def Table.run_modification_script (t : Table) (file : String)
    (silent : Option Bool) (params : Option Params) : List ScriptCall :=
  [⟨file, t.dsn, silent, params⟩]

/-- `Table.insert_if(period, file, silent=None, params=None)`. -/
def Table.insert_if (t : Table) (period file : String) (silent : Option Bool)
    (params : Option Params) : Table × List ScriptCall × Except Err Bool :=
  match parseDate period with
  | none => (t, [], .error (.valueError "The \x27period\x27 must be in \x27YYYY-MM-DD\x27 format."))
  | some _ =>
    match t.compare_period period true true with
    | .error e => (t, [], .error e)
    | .ok true => (t, t.run_modification_script file silent params, .ok true)
    | .ok false => (t, [], .ok false)

/-- `Table.delete_if(period, file, silent=None, params=None)`.  Note that the
script call passes the caller's `params` straight through. -/
def Table.delete_if (t : Table) (period file : String) (silent : Option Bool)
    (params : Option Params) : Table × List ScriptCall × Except Err Bool :=
  if strOptFalsy t.period_column then
    (t, [], .error (.valueError "The \x27period_column\x27 is not set. Update periods using the \x27update_periods\x27 method first."))
  else
    match parseDate period with
    | none => (t, [], .error (.valueError "The \x27period\x27 must be in \x27YYYY-MM-DD\x27 format."))
    | some _ =>
      match t.compare_period period true false with
      | .error e => (t, [], .error e)
      | .ok true => (t, t.run_modification_script file silent params, .ok true)
      | .ok false => (t, [], .ok false)

/-- `Table.delete_period(period, deletion_file_path, silent=False)`: the only
method that builds the `{name, column, mes}` parameter bundle; `f"{None}"`
renders as the string `None`. -/
def Table.delete_period (t : Table) (period deletion_file_path : String)
    (silent : Bool) : Table × List ScriptCall × Except Err Unit :=
  let params_dict : Params :=
    [("name", t.sql_name),
     ("column", match t.period_column with | none => "None" | some c => c),
     ("mes", "\x27" ++ period ++ "\x27")]
  (t, t.run_modification_script deletion_file_path (some silent) (some params_dict), .ok ())

/-- One call to any public method of `Table`, with its arguments (gateway
responses included, for the methods that query). -/
inductive Op where
  | query_data (query : String)
  | update_periods (col : String) (df : QueryResult)
  | update_dates (col : String) (df : QueryResult)
  | compare_period (p : String) (greater m : Bool)
  | compare_date (p : String) (greater m : Bool)
  | get_period_datetime (m d : Bool)
  | run_modification_script (file : String) (silent : Option Bool) (params : Option Params)
  | insert_if (p file : String) (silent : Option Bool) (params : Option Params)
  | delete_if (p file : String) (silent : Option Bool) (params : Option Params)
  | get_df
  | delete_period (p file : String) (silent : Bool)

/-- The table state after running one method.  `query_data` and `get_df` only
run a query through the gateway and `compare_*` / `get_period_datetime` /
`run_modification_script` contain no attribute assignment, so for those the
state is the receiver itself. -/
def Table.applyOp (t : Table) : Op → Table
  | .query_data _ => t
  | .update_periods col df => (t.update_periods col df).1
  | .update_dates col df => (t.update_dates col df).1
  | .compare_period _ _ _ => t
  | .compare_date _ _ _ => t
  | .get_period_datetime _ _ => t
  | .run_modification_script _ _ _ => t
  | .insert_if p file s pr => (t.insert_if p file s pr).1
  | .delete_if p file s pr => (t.delete_if p file s pr).1
  | .get_df => t
  | .delete_period p file s => (t.delete_period p file s).1

namespace Process

/-- Pandas dtypes that `optimize_dtypes` inspects or produces. -/
inductive Dtype where
  | int64
  | int32
  | int16
  | obj
  | category
deriving DecidableEq, Repr

/-- One dataframe column: an integer column or a text column, each with its
dtype tag and its cell values. -/
inductive Column where
  | intCol (name : String) (dt : Dtype) (vs : List Int)
  | strCol (name : String) (dt : Dtype) (vs : List String)
deriving DecidableEq, Repr

/-- A pandas DataFrame for `optimize_dtypes`: its row count (`len(df)`) and
its columns. -/
structure Frame where
  nrows : Nat
  cols : List Column
deriving DecidableEq, Repr

/-- `numpy` `astype` to a signed `bits`-wide integer: wraps modulo `2 ^ bits`
into `[-2 ^ (bits - 1), 2 ^ (bits - 1))`. -/
def wrapCast (bits : Nat) (v : Int) : Int :=
  let m : Int := 2 ^ bits
  let r := v % m
  if r < 2 ^ (bits - 1) then r else r - m

/-- `Series.min()` over an integer column; `none` models the NaN returned on
an empty column. -/
def seriesMin : List Int → Option Int
  | [] => none
  | v :: rest => some (rest.foldl min v)

/-- `Series.max()` over an integer column. -/
def seriesMax : List Int → Option Int
  | [] => none
  | v :: rest => some (rest.foldl max v)

/-- The source's `df[col].min() >= -32768 and df[col].max() <= 32767` test;
on an empty column both sides are NaN comparisons, hence false. -/
def int16Range (vs : List Int) : Bool :=
  match seriesMin vs, seriesMax vs with
  | some lo, some hi => decide (-32768 ≤ lo) && decide (hi ≤ 32767)
  | _, _ => false

/-- The body of `optimize_dtypes`'s loop for one column.  `nunique() / len(df)
< 0.5` is the exact rational test `2 * nunique < nrows`; with `len(df) = 0` it
is Python's division by zero. -/
def optimizeCol (nrows : Nat) : Column → Except Err Column
  | .intCol name dt vs =>
    if dt = .int64 then
      if int16Range vs then .ok (.intCol name .int16 (vs.map (wrapCast 16)))
      else .ok (.intCol name .int32 (vs.map (wrapCast 32)))
    else .ok (.intCol name dt vs)
  | .strCol name dt vs =>
    if dt = .obj then
      if nrows = 0 then .error .zeroDivisionError
      else if 2 * vs.dedup.length < nrows then .ok (.strCol name .category vs)
      else .ok (.strCol name dt vs)
    else .ok (.strCol name dt vs)

/-- `optimize_dtypes`'s loop over the columns. -/
def optimizeCols (nrows : Nat) : List Column → Except Err (List Column)
  | [] => .ok []
  | c :: rest =>
    match optimizeCol nrows c with
    | .error e => .error e
    | .ok c2 =>
      match optimizeCols nrows rest with
      | .error e => .error e
      | .ok r => .ok (c2 :: r)

/-- `Process.optimize_dtypes(df)`. -/
def optimize_dtypes (df : Frame) : Except Err Frame :=
  match optimizeCols df.nrows df.cols with
  | .error e => .error e
  | .ok cs => .ok ⟨df.nrows, cs⟩

/-- A dataframe for `nulls_imputation`: named numeric columns whose cells may
be null.  Cell values are exact rationals standing for the Python numbers
involved (integers, and the products with the 2 and 0.75 factors, are all
exactly representable). -/
structure NFrame where
  cols : List (String × List (Option ℚ))
deriving DecidableEq

/-- `column in df.columns`. -/
def NFrame.hasCol (df : NFrame) (c : String) : Bool :=
  df.cols.any (fun p => p.1 == c)

/-- `df[column]`. -/
def NFrame.getCol (df : NFrame) (c : String) : List (Option ℚ) :=
  match df.cols.find? (fun p => p.1 == c) with
  | some p => p.2
  | none => []

/-- `df[column] = vs`. -/
def NFrame.setCol (df : NFrame) (c : String) (vs : List (Option ℚ)) : NFrame :=
  ⟨df.cols.map (fun p => if p.1 == c then (p.1, vs) else p)⟩

/-- `Series.fillna(x)`. -/
def fillnaList (vs : List (Option ℚ)) (x : ℚ) : List (Option ℚ) :=
  vs.map (fun v => match v with | none => some x | some y => some y)

/-- `Series.max()` skipping nulls; `none` models NaN on an all-null column. -/
def seriesMaxQ (vs : List (Option ℚ)) : Option ℚ :=
  match vs.filterMap id with
  | [] => none
  | v :: rest => some (rest.foldl max v)

/-- `Series.mean()` skipping nulls; `none` models NaN on an all-null column. -/
def seriesMeanQ (vs : List (Option ℚ)) : Option ℚ :=
  match vs.filterMap id with
  | [] => none
  | v :: rest => some ((rest.foldl (· + ·) v) / (rest.length + 1 : ℚ))

/-- The `value` argument of `nulls_imputation`: a Python int, or a string
(`"max"`, `"mean"`, or anything else, which hits the final `raise`). -/
inductive FillValue where
  | int (n : Int)
  | str (s : String)
deriving DecidableEq

/-- `Process.nulls_imputation(df, columns, value, max_factor, mean_factor)`.
The loop mutates `df` column by column and checks each column's existence only
when it is reached, so the post-state on the error path keeps the imputations
already applied.  Filling with a NaN-valued `max`/`mean` of an all-null column
leaves the column unchanged. -/
def nulls_imputation (df : NFrame) (columns : List String) (value : FillValue)
    (max_factor mean_factor : ℚ) : NFrame × Except Err Unit :=
  match columns with
  | [] => (df, .ok ())
  | column :: rest =>
    if df.hasCol column then
      match value with
      | .int n =>
        nulls_imputation (df.setCol column (fillnaList (df.getCol column) (n : ℚ)))
          rest value max_factor mean_factor
      | .str s =>
        if s = "max" then
          let vs := df.getCol column
          let df2 :=
            match seriesMaxQ vs with
            | none => df
            | some mx => df.setCol column (fillnaList vs (mx * max_factor))
          nulls_imputation df2 rest value max_factor mean_factor
        else if s = "mean" then
          let vs := df.getCol column
          let df2 :=
            match seriesMeanQ vs with
            | none => df
            | some mn => df.setCol column (fillnaList vs (mn * mean_factor))
          nulls_imputation df2 rest value max_factor mean_factor
        else
          (df, .error (.valueError "The `value` argument should be an integer, \x27max\x27, or \x27mean\x27."))
    else
      (df, .error (.valueError ("Column `" ++ column ++ "` does not exist in the DataFrame.")))

end Process

/-- A table fixture: the state `Table("t", "s", "DWH_TERADATA")` reaches after
construction, with the period-tracking fields set as given. -/
def mkT (pc maxp minp : Option String) : Table :=
  { name := "t", schema := "s", dsn := "DWH_TERADATA", sql_name := "s.t",
    motor := "teradata", period_column := pc, max_period := maxp,
    min_period := minp, date_column := none, max_date := none, min_date := none }

lemma parseDate_empty : parseDate "" = none := by decide

lemma parseDate_ne_empty {b : String} {db : Date} (hb : parseDate b = some db) :
    b ≠ "" := by
  intro e
  rw [e, parseDate_empty] at hb
  exact Option.noConfusion hb

lemma dateLt_irrefl (d : Date) : dateLt d d = false := by
  simp [dateLt]

/-- Evaluation of `compare_period` when the candidate parses, the selected
bound is present and the bound parses: the result is the strict comparison in
the direction chosen by `greater`. -/
lemma compare_period_eval (t : Table) (a b : String) (greater m : Bool)
    (da db : Date) (ha : parseDate a = some da) (hb : parseDate b = some db)
    (hsel : (if m then t.max_period else t.min_period) = some b) :
    t.compare_period a greater m =
      .ok (if greater then dateLt db da else dateLt da db) := by
  have hbne : b ≠ "" := parseDate_ne_empty hb
  unfold Table.compare_period
  simp only [ha, hsel, hb]
  rw [if_neg hbne]

/-- C1: for valid canonical dates `a` (candidate) and `b` (the selected stored
bound), `compare_period(a, greater, use_max)` returns `a > b` when `greater`
is true and `b > a` when `greater` is false, strictly in both directions;
when `a` equals `b` the result is `false` for either value of `greater`. -/
theorem compare_period_strict_correct :
    ∀ (t : Table) (a b : String) (greater m : Bool) (da db : Date),
      parseDate a = some da → parseDate b = some db →
      (if m then t.max_period else t.min_period) = some b →
      t.compare_period a greater m =
        .ok (if greater then dateLt db da else dateLt da db) ∧
      (da = db → t.compare_period a greater m = .ok false) := by
  intro t a b greater m da db ha hb hsel
  have h := compare_period_eval t a b greater m da db ha hb hsel
  refine ⟨h, ?_⟩
  intro he
  subst he
  rw [h, dateLt_irrefl]
  cases greater <;> rfl

/-- Witness for C1 on concrete data: with `max_period = 2024-01-05` and
`min_period = 2024-01-02`, equality yields `false`, a later candidate beats
the max with `greater = true`, and the min beats an earlier candidate with
`greater = false`. -/
theorem compare_period_strict_witness :
    (mkT (some "mes") (some "2024-01-05") (some "2024-01-02")).compare_period
      "2024-01-05" true true = .ok false ∧
    (mkT (some "mes") (some "2024-01-05") (some "2024-01-02")).compare_period
      "2024-01-07" true true = .ok true ∧
    (mkT (some "mes") (some "2024-01-05") (some "2024-01-02")).compare_period
      "2024-01-01" false false = .ok true := by
  refine ⟨?_, ?_, ?_⟩
  · exact (compare_period_strict_correct
      (mkT (some "mes") (some "2024-01-05") (some "2024-01-02"))
      "2024-01-05" "2024-01-05" true true ⟨2024, 1, 5⟩ ⟨2024, 1, 5⟩
      (by decide) (by decide) (by decide)).2 rfl
  · exact ((compare_period_strict_correct
      (mkT (some "mes") (some "2024-01-05") (some "2024-01-02"))
      "2024-01-07" "2024-01-05" true true ⟨2024, 1, 7⟩ ⟨2024, 1, 5⟩
      (by decide) (by decide) (by decide)).1).trans
      (congrArg Except.ok (by decide))
  · exact ((compare_period_strict_correct
      (mkT (some "mes") (some "2024-01-05") (some "2024-01-02"))
      "2024-01-01" "2024-01-02" false false ⟨2024, 1, 1⟩ ⟨2024, 1, 2⟩
      (by decide) (by decide) (by decide)).1).trans
      (congrArg Except.ok (by decide))

/-- C2: with `max_period` set to a valid canonical date, `insert_if(p, ...)`
returns `true` and performs exactly one script execution iff `p` is strictly
greater than the stored `max_period`, otherwise returns `false` with no
execution; in both cases the table state (in particular every bound field) is
returned unchanged. -/
theorem insert_if_gate_correct :
    ∀ (t : Table) (p file : String) (silent : Option Bool) (params : Option Params)
      (bp : String) (dp db : Date),
      t.max_period = some bp → parseDate p = some dp → parseDate bp = some db →
      t.insert_if p file silent params =
        (t, (if dateLt db dp then [⟨file, t.dsn, silent, params⟩] else []),
          .ok (dateLt db dp)) := by
  intro t p file silent params bp dp db hmax hp hb
  have hc : t.compare_period p true true = .ok (dateLt db dp) := by
    have h := compare_period_eval t p bp true true dp db hp hb (by simpa using hmax)
    simpa using h
  unfold Table.insert_if
  simp only [hp, hc]
  cases hlt : dateLt db dp <;> simp [Table.run_modification_script]

/-- Witness for C2: with `max_period = 2024-01-05`, inserting `2024-02-01`
runs the script once and returns `true`; inserting `2023-12-01` runs nothing
and returns `false`; the table is unchanged in both cases. -/
theorem insert_if_gate_witness :
    (mkT (some "mes") (some "2024-01-05") none).insert_if
      "2024-02-01" "ins.sql" none none =
      (mkT (some "mes") (some "2024-01-05") none,
        [⟨"ins.sql", "DWH_TERADATA", none, none⟩], .ok true) ∧
    (mkT (some "mes") (some "2024-01-05") none).insert_if
      "2023-12-01" "ins.sql" none none =
      (mkT (some "mes") (some "2024-01-05") none, [], .ok false) := by
  constructor
  · exact (insert_if_gate_correct (mkT (some "mes") (some "2024-01-05") none)
      "2024-02-01" "ins.sql" none none "2024-01-05" ⟨2024, 2, 1⟩ ⟨2024, 1, 5⟩
      rfl (by decide) (by decide)).trans (by decide)
  · exact (insert_if_gate_correct (mkT (some "mes") (some "2024-01-05") none)
      "2023-12-01" "ins.sql" none none "2024-01-05" ⟨2023, 12, 1⟩ ⟨2024, 1, 5⟩
      rfl (by decide) (by decide)).trans (by decide)

/-- Evaluation of `delete_if` when `period_column` is truthy, the candidate
parses and the stored minimum parses: the script runs iff the candidate is
strictly ahead of the minimum, with the caller's arguments passed through. -/
lemma delete_if_eval (t : Table) (p c b file : String) (silent : Option Bool)
    (params : Option Params) (dp db : Date) (hc : t.period_column = some c)
    (hcne : c ≠ "") (hmin : t.min_period = some b) (hb : parseDate b = some db)
    (hp : parseDate p = some dp) :
    t.delete_if p file silent params =
      (t, (if dateLt db dp then [⟨file, t.dsn, silent, params⟩] else []),
        .ok (dateLt db dp)) := by
  have hg : strOptFalsy t.period_column = false := by
    rw [hc]; simp [strOptFalsy, hcne]
  have hcmp : t.compare_period p true false = .ok (dateLt db dp) := by
    have h := compare_period_eval t p b true false dp db hp hb (by simpa using hmin)
    simpa using h
  unfold Table.delete_if
  simp only [hg, Bool.false_eq_true, if_false, hp, hcmp]
  cases hlt : dateLt db dp <;> simp [Table.run_modification_script]

/-- C3 counterexample: a table whose `period_column` was supplied at
construction but which had no bounds refresh makes `delete_if` fail with the
comparison-level missing-bound error (`BoundsNotSetError` in the spec's
taxonomy), not with the `period_column` precondition error the claim names. -/
theorem delete_if_precondition_counterexample :
    ((mkT (some "mes") none none).delete_if "2024-01-01" "del.sql" none none).2.2 =
      .error (.valueError "The min period is not set. Please run \x27update_periods\x27 first.") ∧
    Err.valueError "The min period is not set. Please run \x27update_periods\x27 first." ≠
      Err.valueError "The \x27period_column\x27 is not set. Update periods using the \x27update_periods\x27 method first." := by
  constructor
  · decide
  · decide

/-- C3 as amended: before any bounds refresh `delete_if` always fails, but the
error depends on how the table was built: with `period_column` unset (falsy)
it is the precondition error; with `period_column` supplied at construction it
is the missing-min-bound error raised by `compare_period`.  After a refresh
that stored a parseable minimum, `delete_if(p, ...)` returns `true` iff
`min_period` is strictly less than `p`. -/
theorem delete_if_failure_modes :
    (∀ (t : Table) (p file : String) (silent : Option Bool) (params : Option Params),
      strOptFalsy t.period_column = true →
      t.delete_if p file silent params =
        (t, [], .error (.valueError "The \x27period_column\x27 is not set. Update periods using the \x27update_periods\x27 method first."))) ∧
    (∀ (t : Table) (p c file : String) (silent : Option Bool) (params : Option Params)
      (dp : Date),
      t.period_column = some c → c ≠ "" → t.min_period = none → parseDate p = some dp →
      t.delete_if p file silent params =
        (t, [], .error (.valueError "The min period is not set. Please run \x27update_periods\x27 first."))) ∧
    (∀ (t : Table) (p c b file : String) (silent : Option Bool) (params : Option Params)
      (dp db : Date),
      t.period_column = some c → c ≠ "" → t.min_period = some b →
      parseDate b = some db → parseDate p = some dp →
      t.delete_if p file silent params =
        (t, (if dateLt db dp then [⟨file, t.dsn, silent, params⟩] else []),
          .ok (dateLt db dp))) := by
  refine ⟨?_, ?_, ?_⟩
  · intro t p file silent params h
    unfold Table.delete_if
    simp [h]
  · intro t p c file silent params dp hc hcne hmin hp
    have hg : strOptFalsy t.period_column = false := by
      rw [hc]; simp [strOptFalsy, hcne]
    have hcmp : t.compare_period p true false =
        .error (.valueError "The min period is not set. Please run \x27update_periods\x27 first.") := by
      unfold Table.compare_period
      simp only [hp, Bool.false_eq_true, if_false, hmin]
      decide
    unfold Table.delete_if
    simp only [hg, Bool.false_eq_true, if_false, hp, hcmp]
  · intro t p c b file silent params dp db hc hcne hmin hb hp
    exact delete_if_eval t p c b file silent params dp db hc hcne hmin hb hp

/-- Witness for C3's amended statement, instantiating its three cases:
`period_column` never set; `period_column` set at construction but bounds
never refreshed; and a refreshed table with `min_period = 2024-01-01` on which
`delete_if "2024-03-01"` deletes and `delete_if "2023-01-01"` does not. -/
theorem delete_if_failure_modes_witness :
    (mkT none none none).delete_if "2024-01-01" "del.sql" none none =
      (mkT none none none, [],
        .error (.valueError "The \x27period_column\x27 is not set. Update periods using the \x27update_periods\x27 method first.")) ∧
    (mkT (some "mes") none none).delete_if "2024-01-01" "del.sql" none none =
      (mkT (some "mes") none none, [],
        .error (.valueError "The min period is not set. Please run \x27update_periods\x27 first.")) ∧
    (mkT (some "mes") none (some "2024-01-01")).delete_if "2024-03-01" "del.sql" none none =
      (mkT (some "mes") none (some "2024-01-01"),
        [⟨"del.sql", "DWH_TERADATA", none, none⟩], .ok true) ∧
    (mkT (some "mes") none (some "2024-01-01")).delete_if "2023-01-01" "del.sql" none none =
      (mkT (some "mes") none (some "2024-01-01"), [], .ok false) := by
  refine ⟨?_, ?_, ?_, ?_⟩
  · exact delete_if_failure_modes.1 (mkT none none none) "2024-01-01" "del.sql"
      none none (by decide)
  · exact delete_if_failure_modes.2.1 (mkT (some "mes") none none) "2024-01-01"
      "mes" "del.sql" none none ⟨2024, 1, 1⟩ rfl (by decide) rfl (by decide)
  · exact (delete_if_failure_modes.2.2 (mkT (some "mes") none (some "2024-01-01"))
      "2024-03-01" "mes" "2024-01-01" "del.sql" none none ⟨2024, 3, 1⟩ ⟨2024, 1, 1⟩
      rfl (by decide) rfl (by decide) (by decide)).trans (by decide)
  · exact (delete_if_failure_modes.2.2 (mkT (some "mes") none (some "2024-01-01"))
      "2023-01-01" "mes" "2024-01-01" "del.sql" none none ⟨2023, 1, 1⟩ ⟨2024, 1, 1⟩
      rfl (by decide) rfl (by decide) (by decide)).trans (by decide)

/-- C4 counterexample: on a deletion-required call, `delete_if` passes the
caller's `params` (here `None`) to the script verbatim; the per-table bundle
`{name, column, mes}` — built only by `delete_period` — never appears in the
call `delete_if` makes. -/
theorem delete_if_params_counterexample :
    ((mkT (some "mes") none (some "2024-01-01")).delete_if
        "2024-03-01" "del.sql" none none).2 =
      ([{ file := "del.sql", dsn := "DWH_TERADATA", silent := none, params := none }],
        .ok true) ∧
    ((mkT (some "mes") none (some "2024-01-01")).delete_period
        "2024-03-01" "del.sql" false).2.1 =
      [{ file := "del.sql", dsn := "DWH_TERADATA", silent := some false,
         params := some [("name", "s.t"), ("column", "mes"), ("mes", "\x272024-03-01\x27")] }] ∧
    (none : Option Params) ≠
      some [("name", "s.t"), ("column", "mes"), ("mes", "\x272024-03-01\x27")] := by
  refine ⟨by decide, by decide, by decide⟩

/-- C4 as amended: when `delete_if` decides a deletion is required it invokes
script execution once with the caller-supplied file, silent flag and `params`
passed through unchanged and returns `true`; otherwise it returns `false`
with no execution.  The `{name, column, mes}` parameter bundle is built only
by the separate `delete_period` method, which `delete_if` does not call. -/
theorem delete_if_passthrough_and_delete_period_bundle :
    (∀ (t : Table) (p c b file : String) (silent : Option Bool) (params : Option Params)
      (dp db : Date),
      t.period_column = some c → c ≠ "" → t.min_period = some b →
      parseDate b = some db → parseDate p = some dp → dateLt db dp = true →
      t.delete_if p file silent params = (t, [⟨file, t.dsn, silent, params⟩], .ok true)) ∧
    (∀ (t : Table) (p c b file : String) (silent : Option Bool) (params : Option Params)
      (dp db : Date),
      t.period_column = some c → c ≠ "" → t.min_period = some b →
      parseDate b = some db → parseDate p = some dp → dateLt db dp = false →
      t.delete_if p file silent params = (t, [], .ok false)) ∧
    (∀ (t : Table) (p file : String) (silent : Bool),
      t.delete_period p file silent =
        (t, [⟨file, t.dsn, some silent,
          some [("name", t.sql_name),
                ("column", match t.period_column with | none => "None" | some c => c),
                ("mes", "\x27" ++ p ++ "\x27")]⟩], .ok ())) := by
  refine ⟨?_, ?_, ?_⟩
  · intro t p c b file silent params dp db hc hcne hmin hb hp hlt
    have h := delete_if_eval t p c b file silent params dp db hc hcne hmin hb hp
    rw [hlt] at h
    simpa using h
  · intro t p c b file silent params dp db hc hcne hmin hb hp hlt
    have h := delete_if_eval t p c b file silent params dp db hc hcne hmin hb hp
    rw [hlt] at h
    simpa using h
  · intro t p file silent
    rfl

/-- Witness for C4's amended statement: the required-deletion call passes a
caller-supplied params dict through unchanged, the not-required call runs
nothing, and `delete_period` builds the bundle. -/
theorem delete_if_passthrough_witness :
    (mkT (some "mes") none (some "2024-01-01")).delete_if
      "2024-03-01" "del.sql" (some true) (some [("a", "b")]) =
      (mkT (some "mes") none (some "2024-01-01"),
        [⟨"del.sql", "DWH_TERADATA", some true, some [("a", "b")]⟩], .ok true) ∧
    (mkT (some "mes") none (some "2024-01-01")).delete_if
      "2023-01-01" "del.sql" (some true) (some [("a", "b")]) =
      (mkT (some "mes") none (some "2024-01-01"), [], .ok false) ∧
    (mkT (some "mes") none (some "2024-01-01")).delete_period
      "2024-03-01" "del.sql" false =
      (mkT (some "mes") none (some "2024-01-01"),
        [⟨"del.sql", "DWH_TERADATA", some false,
          some [("name", "s.t"), ("column", "mes"), ("mes", "\x272024-03-01\x27")]⟩],
        .ok ()) := by
  refine ⟨?_, ?_, ?_⟩
  · exact (delete_if_passthrough_and_delete_period_bundle.1
      (mkT (some "mes") none (some "2024-01-01")) "2024-03-01" "mes" "2024-01-01"
      "del.sql" (some true) (some [("a", "b")]) ⟨2024, 3, 1⟩ ⟨2024, 1, 1⟩
      rfl (by decide) rfl (by decide) (by decide) (by decide))
  · exact (delete_if_passthrough_and_delete_period_bundle.2.1
      (mkT (some "mes") none (some "2024-01-01")) "2023-01-01" "mes" "2024-01-01"
      "del.sql" (some true) (some [("a", "b")]) ⟨2023, 1, 1⟩ ⟨2024, 1, 1⟩
      rfl (by decide) rfl (by decide) (by decide) (by decide))
  · exact (delete_if_passthrough_and_delete_period_bundle.2.2
      (mkT (some "mes") none (some "2024-01-01")) "2024-03-01" "del.sql" false).trans
      (by decide)

/-- C5 counterexample: a bounds refresh whose query returns the string
`banana` and the integer `20240101` succeeds and stores them via `str(...)`
— no `MalformedDateError`, no normalization to `YYYY-MM-DD` — even though
neither stored value parses as a canonical date. -/
theorem update_periods_no_validation_counterexample :
    (Table.update_periods (mkT none none none) "mes"
        (.row (.str "banana") (.int 20240101))).2 = .ok () ∧
    (Table.update_periods (mkT none none none) "mes"
        (.row (.str "banana") (.int 20240101))).1.max_period = some "banana" ∧
    (Table.update_periods (mkT none none none) "mes"
        (.row (.str "banana") (.int 20240101))).1.min_period = some "20240101" ∧
    parseDate "banana" = none ∧
    parseDate "20240101" = none := by
  refine ⟨rfl, rfl, by decide, by decide, by decide⟩

/-- C5 as amended: for any returned row, `update_periods` / `update_dates`
store `str(...)` of the two scalars unconditionally and succeed; no parsing,
validation or normalization is performed at refresh time, so an unparsable
stored bound is detected only later, when a compare operation parses it. -/
theorem bounds_refresh_stores_raw :
    ∀ (t : Table) (col : String) (v0 v1 : PyValue),
      Table.update_periods t col (.row v0 v1) =
        ({ t with
            period_column := some col, max_period := some (pyStr v0),
            min_period := some (pyStr v1) }, .ok ()) ∧
      Table.update_dates t col (.row v0 v1) =
        ({ t with
            date_column := some col, max_date := some (pyStr v0),
            min_date := some (pyStr v1) }, .ok ()) :=
  fun _ _ _ _ => ⟨rfl, rfl⟩

/-- C6 counterexample: on an empty refresh result the call fails, the bounds
are untouched — but `period_column`, another field of the table, has already
been overwritten by the failed call (it was `None` before, `mes` after). -/
theorem update_periods_empty_mutation_counterexample :
    (Table.update_periods (mkT none none none) "mes" .empty).2 =
      .error (.valueError "No data found for column \x27mes\x27 in table \x27s.t\x27.") ∧
    (Table.update_periods (mkT none none none) "mes" .empty).1.period_column =
      some "mes" ∧
    (mkT none none none).period_column = none := by
  refine ⟨by decide, rfl, rfl⟩

/-- C6 as amended: an empty refresh result makes `update_periods` fail with
the no-data error and leaves `max_period` and `min_period` (and every other
field except `period_column`) unchanged; `period_column`, however, is
assigned the argument before the query runs, so the failed call leaves it
overwritten. -/
theorem update_periods_empty_result :
    ∀ (t : Table) (col : String),
      Table.update_periods t col .empty =
        ({ t with period_column := some col },
          .error (.valueError ("No data found for column \x27" ++ col ++
            "\x27 in table \x27" ++ t.sql_name ++ "\x27."))) :=
  fun _ _ => rfl

/-- C7 counterexample: construction with empty `name` and `schema` succeeds
(the source never checks emptiness), yielding the degenerate qualified name
`"."` — the claim says it must fail with `InvalidConfiguration`. -/
theorem init_empty_identifiers_counterexample :
    Table.init "" "" "DWH_TERADATA" none =
      .ok { name := "", schema := "", dsn := "DWH_TERADATA", sql_name := ".",
            motor := "teradata", period_column := none, max_period := none,
            min_period := none, date_column := none, max_date := none,
            min_date := none } := by
  decide

/-- C7 as amended: construction fails (with the invalid-dsn `ValueError`) iff
`data_source` is not one of the two recognized identifiers; `name` and
`schema` are stripped but may be empty.  On success the engine is fixed by
the 1:1 mapping (`DWH_TERADATA` to `teradata`, `BIGDATA_CDP` to `hive`),
`qualified_name` is `strip(schema) + "." + strip(name)`, the bounds start
unset, and no I/O occurs. -/
theorem init_validation :
    (∀ (name schema dsn : String) (pc : Option String),
      dsn ≠ "DWH_TERADATA" → dsn ≠ "BIGDATA_CDP" →
      Table.init name schema dsn pc =
        .error (.valueError "dsn parameter should be \x27DWH_TERADATA\x27 or \x27BIGDATA_CDP\x27.")) ∧
    (∀ (name schema : String) (pc : Option String),
      Table.init name schema "DWH_TERADATA" pc =
        .ok { name := pyStrip name, schema := pyStrip schema, dsn := "DWH_TERADATA",
              sql_name := pyStrip schema ++ "." ++ pyStrip name, motor := "teradata",
              period_column := pc, max_period := none, min_period := none,
              date_column := none, max_date := none, min_date := none }) ∧
    (∀ (name schema : String) (pc : Option String),
      Table.init name schema "BIGDATA_CDP" pc =
        .ok { name := pyStrip name, schema := pyStrip schema, dsn := "BIGDATA_CDP",
              sql_name := pyStrip schema ++ "." ++ pyStrip name, motor := "hive",
              period_column := pc, max_period := none, min_period := none,
              date_column := none, max_date := none, min_date := none }) := by
  refine ⟨?_, ?_, ?_⟩
  · intro name schema dsn pc h1 h2
    unfold Table.init
    rw [if_pos ⟨h1, h2⟩]
  · intro name schema pc
    unfold Table.init
    rw [if_neg (by simp)]
    simp
  · intro name schema pc
    unfold Table.init
    rw [if_neg (by decide)]
    rw [if_neg (by decide)]

/-- Witness for C7's amended statement: an unrecognized identifier is
rejected, each recognized identifier fixes its engine, and whitespace is
stripped from the identifiers. -/
theorem init_validation_witness :
    Table.init "tbl" "sch" "UNKNOWN" none =
      .error (.valueError "dsn parameter should be \x27DWH_TERADATA\x27 or \x27BIGDATA_CDP\x27.") ∧
    Table.init " tbl " "sch" "DWH_TERADATA" (some "mes") =
      .ok { name := "tbl", schema := "sch", dsn := "DWH_TERADATA",
            sql_name := "sch.tbl", motor := "teradata", period_column := some "mes",
            max_period := none, min_period := none, date_column := none,
            max_date := none, min_date := none } ∧
    Table.init "tbl" "sch" "BIGDATA_CDP" none =
      .ok { name := "tbl", schema := "sch", dsn := "BIGDATA_CDP",
            sql_name := "sch.tbl", motor := "hive", period_column := none,
            max_period := none, min_period := none, date_column := none,
            max_date := none, min_date := none } := by
  refine ⟨?_, ?_, ?_⟩
  · exact init_validation.1 "tbl" "sch" "UNKNOWN" none (by decide) (by decide)
  · exact (init_validation.2.1 " tbl " "sch" (some "mes")).trans (by decide)
  · exact (init_validation.2.2 "tbl" "sch" none).trans (by decide)

lemma insert_if_fst (t : Table) (p file : String) (s : Option Bool)
    (pr : Option Params) : (t.insert_if p file s pr).1 = t := by
  unfold Table.insert_if
  cases parseDate p with
  | none => rfl
  | some d =>
    cases t.compare_period p true true with
    | error e => rfl
    | ok b => cases b <;> rfl

lemma delete_if_fst (t : Table) (p file : String) (s : Option Bool)
    (pr : Option Params) : (t.delete_if p file s pr).1 = t := by
  unfold Table.delete_if
  cases strOptFalsy t.period_column with
  | true => rfl
  | false =>
    simp only [Bool.false_eq_true, if_false]
    cases parseDate p with
    | none => rfl
    | some d =>
      cases t.compare_period p true false with
      | error e => rfl
      | ok b => cases b <;> rfl

/-- C8: across every method of `Table`, `max_period` and `min_period` are
either both left exactly as they were, or the method is `update_periods` and
both are assigned (together) in a state whose `period_column` has just been
set to the refreshed column; no other method writes either bound. -/
theorem bounds_assignment_invariant :
    ∀ (t : Table) (op : Op),
      ((t.applyOp op).max_period = t.max_period ∧
        (t.applyOp op).min_period = t.min_period) ∨
      (∃ col df, op = Op.update_periods col df ∧
        (t.applyOp op).period_column = some col ∧
        ∃ a b, (t.applyOp op).max_period = some a ∧
          (t.applyOp op).min_period = some b) := by
  intro t op
  cases op with
  | query_data q => exact Or.inl ⟨rfl, rfl⟩
  | update_periods col df =>
    cases df with
    | empty => exact Or.inl ⟨rfl, rfl⟩
    | row v0 v1 =>
      exact Or.inr ⟨col, .row v0 v1, rfl, rfl, pyStr v0, pyStr v1, rfl, rfl⟩
  | update_dates col df =>
    cases df with
    | empty => exact Or.inl ⟨rfl, rfl⟩
    | row v0 v1 => exact Or.inl ⟨rfl, rfl⟩
  | compare_period p g m => exact Or.inl ⟨rfl, rfl⟩
  | compare_date p g m => exact Or.inl ⟨rfl, rfl⟩
  | get_period_datetime m d => exact Or.inl ⟨rfl, rfl⟩
  | run_modification_script f s pr => exact Or.inl ⟨rfl, rfl⟩
  | insert_if p f s pr =>
    exact Or.inl (by constructor <;>
      simp only [Table.applyOp, insert_if_fst])
  | delete_if p f s pr =>
    exact Or.inl (by constructor <;>
      simp only [Table.applyOp, delete_if_fst])
  | get_df => exact Or.inl ⟨rfl, rfl⟩
  | delete_period p f s => exact Or.inl ⟨rfl, rfl⟩

lemma foldl_min_le_init (l : List Int) (a : Int) : l.foldl min a ≤ a := by
  induction l generalizing a with
  | nil => exact le_refl a
  | cons x xs ih => exact le_trans (ih (min a x)) (min_le_left a x)

lemma foldl_min_le_mem (l : List Int) (a : Int) : ∀ v ∈ l, l.foldl min a ≤ v := by
  induction l generalizing a with
  | nil => intro v hv; cases hv
  | cons x xs ih =>
    intro v hv
    rcases List.mem_cons.mp hv with h | h
    · subst h
      exact le_trans (foldl_min_le_init xs (min a v)) (min_le_right a v)
    · exact ih (min a x) v h

lemma foldl_max_ge_init (l : List Int) (a : Int) : a ≤ l.foldl max a := by
  induction l generalizing a with
  | nil => exact le_refl a
  | cons x xs ih => exact le_trans (le_max_left a x) (ih (max a x))

lemma foldl_max_ge_mem (l : List Int) (a : Int) : ∀ v ∈ l, v ≤ l.foldl max a := by
  induction l generalizing a with
  | nil => intro v hv; cases hv
  | cons x xs ih =>
    intro v hv
    rcases List.mem_cons.mp hv with h | h
    · subst h
      exact le_trans (le_max_right a v) (foldl_max_ge_init xs (max a v))
    · exact ih (max a x) v h

/-- When the source's min/max test passes, every value of the column lies in
the int16 range. -/
lemma int16Range_bounds (vs : List Int) (h : Process.int16Range vs = true) :
    ∀ v ∈ vs, -32768 ≤ v ∧ v ≤ 32767 := by
  cases vs with
  | nil => intro v hv; cases hv
  | cons x xs =>
    unfold Process.int16Range Process.seriesMin Process.seriesMax at h
    rw [Bool.and_eq_true, decide_eq_true_eq, decide_eq_true_eq] at h
    intro v hv
    rcases List.mem_cons.mp hv with he | he
    · subst he
      exact ⟨le_trans h.1 (foldl_min_le_init xs v), le_trans (foldl_max_ge_init xs v) h.2⟩
    · exact ⟨le_trans h.1 (foldl_min_le_mem xs x v he),
        le_trans (foldl_max_ge_mem xs x v he) h.2⟩

/-- `astype('int16')` is the identity on values already in the int16 range. -/
lemma wrapCast16_id (v : Int) (h1 : -32768 ≤ v) (h2 : v ≤ 32767) :
    Process.wrapCast 16 v = v := by
  unfold Process.wrapCast
  norm_num
  split <;> omega

lemma map_eq_self_of (l : List Int) (f : Int → Int) (h : ∀ v ∈ l, f v = v) :
    l.map f = l := by
  induction l with
  | nil => rfl
  | cons x xs ih =>
    rw [List.map_cons, h x (List.mem_cons_self x xs),
      ih (fun v hv => h v (List.mem_cons_of_mem x hv))]

/-- C9 counterexample: an int64 column holding `2 ^ 40` fits no narrower
signed width, so per the claim it must be left unchanged; `optimize_dtypes`
nevertheless casts it to int32, wrapping the value to `0` and losing it. -/
theorem optimize_dtypes_overflow_counterexample :
    Process.optimize_dtypes ⟨1, [.intCol "x" .int64 [1099511627776]]⟩ =
      .ok ⟨1, [.intCol "x" .int32 [0]]⟩ ∧
    (Process.Column.intCol "x" .int32 [0]) ≠ .intCol "x" .int64 [1099511627776] := by
  constructor
  · decide
  · decide

/-- C9 as amended: `optimize_dtypes` maps its per-column rule over the
columns; an int64 column becomes int16 exactly when the source's min/max test
passes (values unchanged), and becomes int32 in every other case — including
values outside the int32 range, which wrap and are lost; integer columns of
other dtypes are untouched; a text column becomes categorical (values
unchanged) exactly when its distinct-value ratio is strictly below 0.5. -/
theorem optimize_dtypes_behavior :
    (∀ (n : Nat) (cs res : List Process.Column),
      Process.optimizeCols n cs = .ok res →
      Process.optimize_dtypes ⟨n, cs⟩ = .ok ⟨n, res⟩) ∧
    (∀ (n : Nat) (name : String) (vs : List Int),
      Process.int16Range vs = true →
      Process.optimizeCol n (.intCol name .int64 vs) = .ok (.intCol name .int16 vs)) ∧
    (∀ (n : Nat) (name : String) (vs : List Int),
      Process.int16Range vs = false →
      Process.optimizeCol n (.intCol name .int64 vs) =
        .ok (.intCol name .int32 (vs.map (Process.wrapCast 32)))) ∧
    (∀ (n : Nat) (name : String) (dt : Process.Dtype) (vs : List Int),
      dt ≠ .int64 →
      Process.optimizeCol n (.intCol name dt vs) = .ok (.intCol name dt vs)) ∧
    (∀ (n : Nat) (name : String) (vs : List String),
      0 < n → 2 * vs.dedup.length < n →
      Process.optimizeCol n (.strCol name .obj vs) = .ok (.strCol name .category vs)) ∧
    (∀ (n : Nat) (name : String) (vs : List String),
      0 < n → ¬ 2 * vs.dedup.length < n →
      Process.optimizeCol n (.strCol name .obj vs) = .ok (.strCol name .obj vs)) := by
  refine ⟨?_, ?_, ?_, ?_, ?_, ?_⟩
  · intro n cs res h
    unfold Process.optimize_dtypes
    rw [h]
  · intro n name vs h
    simp only [Process.optimizeCol]
    rw [if_pos trivial, h, if_pos rfl]
    rw [map_eq_self_of vs (Process.wrapCast 16)
      (fun v hv => wrapCast16_id v (int16Range_bounds vs h v hv).1
        (int16Range_bounds vs h v hv).2)]
  · intro n name vs h
    simp only [Process.optimizeCol]
    rw [if_pos trivial, h]
    simp only [Bool.false_eq_true, if_false]
  · intro n name dt vs h
    simp only [Process.optimizeCol]
    rw [if_neg h]
  · intro n name vs hn h
    simp only [Process.optimizeCol]
    rw [if_pos trivial, if_neg (Nat.pos_iff_ne_zero.mp hn), if_pos h]
  · intro n name vs hn h
    simp only [Process.optimizeCol]
    rw [if_pos trivial, if_neg (Nat.pos_iff_ne_zero.mp hn), if_neg h]

/-- Witness for C9's amended statement, one concrete instance per case: a
frame combining an int16-able column and a low-cardinality text column; an
int64 column that wraps into int32; an already-int16 column left alone; and
the two sides of the 0.5 cardinality cut. -/
theorem optimize_dtypes_behavior_witness :
    Process.optimize_dtypes
      ⟨3, [.intCol "a" .int64 [1, 2, 3], .strCol "s" .obj ["x", "x", "x"]]⟩ =
      .ok ⟨3, [.intCol "a" .int16 [1, 2, 3], .strCol "s" .category ["x", "x", "x"]]⟩ ∧
    Process.optimizeCol 1 (.intCol "a" .int64 [40000]) =
      .ok (.intCol "a" .int32 [40000]) ∧
    Process.optimizeCol 1 (.intCol "a" .int16 [7]) = .ok (.intCol "a" .int16 [7]) ∧
    Process.optimizeCol 3 (.strCol "s" .obj ["x", "x", "x"]) =
      .ok (.strCol "s" .category ["x", "x", "x"]) ∧
    Process.optimizeCol 2 (.strCol "s" .obj ["x", "y"]) =
      .ok (.strCol "s" .obj ["x", "y"]) := by
  refine ⟨?_, ?_, ?_, ?_, ?_⟩
  · exact optimize_dtypes_behavior.1 3
      [.intCol "a" .int64 [1, 2, 3], .strCol "s" .obj ["x", "x", "x"]]
      [.intCol "a" .int16 [1, 2, 3], .strCol "s" .category ["x", "x", "x"]]
      (by decide)
  · exact (optimize_dtypes_behavior.2.2.1 1 "a" [40000] (by decide)).trans (by decide)
  · exact optimize_dtypes_behavior.2.2.2.1 1 "a" .int16 [7] (by decide)
  · exact optimize_dtypes_behavior.2.2.2.2.1 3 "s" ["x", "x", "x"] (by decide) (by decide)
  · exact optimize_dtypes_behavior.2.2.2.2.2 2 "s" ["x", "y"] (by decide) (by decide)

/-- C10: `nulls_imputation` walks the requested columns strictly in list
order and checks existence only on arrival, so when every column of a prefix
exists (the run over the prefix alone succeeds) and the next listed column is
absent from the resulting frame, the full call stops with the unknown-column
error while returning exactly the frame already mutated by the prefix — the
failed call is not atomic. -/
theorem nulls_imputation_order_not_atomic :
    ∀ (df : Process.NFrame) (pre : List String) (c : String) (rest : List String)
      (v : Int) (mf mn : ℚ),
      (Process.nulls_imputation df pre (.int v) mf mn).2 = .ok () →
      (Process.nulls_imputation df pre (.int v) mf mn).1.hasCol c = false →
      Process.nulls_imputation df (pre ++ c :: rest) (.int v) mf mn =
        ((Process.nulls_imputation df pre (.int v) mf mn).1,
          .error (.valueError ("Column `" ++ c ++ "` does not exist in the DataFrame."))) := by
  intro df pre c rest v mf mn
  induction pre generalizing df with
  | nil =>
    intro _ h2
    simp only [Process.nulls_imputation, List.nil_append] at h2 ⊢
    rw [h2]
    simp
  | cons p ps ih =>
    intro h1 h2
    simp only [List.cons_append]
    simp only [Process.nulls_imputation] at h1 h2 ⊢
    by_cases hp : df.hasCol p = true
    · simp only [if_pos hp] at h1 h2 ⊢
      exact ih (df.setCol p (Process.fillnaList (df.getCol p) (v : ℚ))) h1 h2
    · rw [if_neg hp] at h1
      simp at h1

/-- Witness for C10: on a frame with one column `x` containing a null, the
call `nulls_imputation(df, ["x", "y"], 0)` raises the unknown-column error
for `y` but leaves `x` already imputed — the returned frame differs from the
input frame. -/
theorem nulls_imputation_order_witness :
    Process.nulls_imputation ⟨[("x", [none, some 1])]⟩ ["x", "y"] (.int 0) 2 (3 / 4) =
      (⟨[("x", [some 0, some 1])]⟩,
        .error (.valueError "Column `y` does not exist in the DataFrame.")) ∧
    (⟨[("x", [some 0, some 1])]⟩ : Process.NFrame) ≠ ⟨[("x", [none, some 1])]⟩ := by
  constructor
  · exact (nulls_imputation_order_not_atomic ⟨[("x", [none, some 1])]⟩ ["x"] "y" []
      0 2 (3 / 4) (by decide) (by decide)).trans (by decide)
  · decide

end Telefonica
